import Mathlib

/-
Verification of the cube orientation and face-cycling core of the
cube-swiper widget (src/components/MagicCube.vue and its drifted copies).

Modelling conventions:
* JavaScript double arithmetic is idealized as exact rational arithmetic
  over ℚ; none of the verified properties depends on rounding.
* `Date.now()` timestamps are naturals (milliseconds); `performance.now()`
  timestamps are rationals.
* The numeric evolution of the cube quaternion under `slerp` is
  transcendental; where a claim is about which rotation writes occur in a
  tick (not their numeric result), the tick is embedded as a state update
  plus an explicit trace of the quaternion writes it performs, each
  recorded with the arguments the source passes.
-/

namespace CubeSwiper

/-- Rotation configuration constants from MagicCube.vue. -/
def DRAG_SENSITIVITY : ℚ := 3 / 10

/-- Slerp factor for drag smoothing. -/
def SLERP_FACTOR : ℚ := 8 / 100

/-- Exact rational value of the IEEE-754 double `Math.PI`. -/
def piDouble : ℚ := 884279719003555 / 281474976710656

/-- Degrees-to-radians factor `Math.PI / 180` (exact over ℚ). -/
def DEG_TO_RAD : ℚ := piDouble / 180

/-- Scale factor for momentum capture. -/
def MOMENTUM_SCALE : ℚ := 12 / 100

/-- Momentum decay per frame. -/
def MOMENTUM_DECAY : ℚ := 9 / 10

/-- Momentum stop threshold (radians). -/
def MOMENTUM_THRESHOLD : ℚ := 1 / 10000

/-- Minimum rotation to trigger momentum (radians). -/
def MOMENTUM_MINIMUM : ℚ := 3 / 100

/-- Per-face image-advance cooldown in milliseconds. -/
def COOLDOWN_MS : ℕ := 3000

/-- A 3-vector with rational coordinates (idealized THREE.Vector3). -/
structure Vec3 where
  x : ℚ
  y : ℚ
  z : ℚ
deriving DecidableEq

/-- A quaternion with rational coordinates (idealized THREE.Quaternion). -/
structure Quat where
  x : ℚ
  y : ℚ
  z : ℚ
  w : ℚ
deriving DecidableEq

/-- Dot product, as in THREE.Vector3.dot. -/
def dot (a b : Vec3) : ℚ := a.x * b.x + a.y * b.y + a.z * b.z

/-- Negation of a vector. -/
def negVec (v : Vec3) : Vec3 := ⟨-v.x, -v.y, -v.z⟩

/-- THREE.Vector3.applyQuaternion: rotation of v by q via
t = 2 cross(q.xyz, v); result = v + q.w t + cross(q.xyz, t). -/
def applyQuaternion (q : Quat) (v : Vec3) : Vec3 :=
  let tx := 2 * (q.y * v.z - q.z * v.y)
  let ty := 2 * (q.z * v.x - q.x * v.z)
  let tz := 2 * (q.x * v.y - q.y * v.x)
  ⟨v.x + q.w * tx + q.y * tz - q.z * ty,
   v.y + q.w * ty + q.z * tx - q.x * tz,
   v.z + q.w * tz + q.x * ty - q.y * tx⟩

/-- The six fixed local face normals of the cube, in source order:
right (+X), left (-X), top (+Y), bottom (-Y), front (+Z), back (-Z). -/
def faceNormals : Fin 6 → Vec3 :=
  ![⟨1, 0, 0⟩, ⟨-1, 0, 0⟩, ⟨0, 1, 0⟩, ⟨0, -1, 0⟩, ⟨0, 0, 1⟩, ⟨0, 0, -1⟩]

/-- The camera view direction returned by camera.getWorldDirection for the
camera placed at (0, 0, z), z > 0, looking at the origin. -/
def cameraDirection : Vec3 := ⟨0, 0, -1⟩

/-- The body of the getVisibleFaces loop: a face joins the set when its
world-space normal has strictly positive dot product with the camera
direction. The source also calls worldNormal.normalize() before the dot
product; normalization divides by a nonnegative scalar and never changes
the sign of the subsequent dot product (theorem dot_normalize_pos_iff
below), so it is omitted from the rational model. -/
def getVisibleFaces (q : Quat) : Finset (Fin 6) :=
  (List.finRange 6).foldl
    (fun visible i =>
      let worldNormal := applyQuaternion q (faceNormals i)
      if 0 < dot worldNormal cameraDirection then insert i visible else visible)
    ∅

/-- Spec-side definition of the visible set, written from the words of the
specification: exactly the faces whose rotated local normal has strictly
positive dot product with the camera view direction. -/
def visibleFacesSpec (q : Quat) : Finset (Fin 6) :=
  Finset.univ.filter fun i => 0 < dot (applyQuaternion q (faceNormals i)) cameraDirection

/-- Guarded entry point of the visibility evaluator: the source returns the
empty set and logs a console warning when called before the camera or the
cube exist, and never throws. The Bool component records whether the
diagnostic was emitted. -/
def getVisibleFacesChecked (cameraReady cubeReady : Bool) (q : Quat) :
    Finset (Fin 6) × Bool :=
  if cameraReady = false ∨ cubeReady = false then (∅, true)
  else (getVisibleFaces q, false)

/-- The identity quaternion (no rotation). -/
def idQuat : Quat := ⟨0, 0, 0, 1⟩

/-! Face Cycling Engine (MagicCube.vue lines 219-222 and 628-649). -/

/-- Per-face bookkeeping of the Face Cycling Engine: the previous visible
set, the per-face current image indices, the per-face last-changed
timestamps (Date.now milliseconds) and the global cycle counter. -/
structure FaceCycleState where
  previouslyVisibleFaces : Finset (Fin 6)
  faceImageIndices : Fin 6 → ℕ
  faceChangeTimestamps : Fin 6 → ℕ
  totalImageCycles : ℕ

/-- Initial engine state as declared in the source: the previous visible
set starts EMPTY, indices are mapped 1:1, timestamps are all zero. -/
def initialFaceCycleState : FaceCycleState where
  previouslyVisibleFaces := ∅
  faceImageIndices := fun i => i.val
  faceChangeTimestamps := fun _ => 0
  totalImageCycles := 0

/-- A face fires an image advance this tick when it is in the current
visible set, was not in the previous visible set, and its cooldown check
`now - faceChangeTimestamps[face] < COOLDOWN_MS` does not suppress it.
Natural subtraction truncates at zero, which matches the JavaScript
comparison: a negative difference is also below the cooldown. -/
def faceFires (s : FaceCycleState) (nowVisible : Finset (Fin 6)) (now : ℕ)
    (i : Fin 6) : Prop :=
  i ∈ nowVisible ∧ i ∉ s.previouslyVisibleFaces ∧
    ¬ (now - s.faceChangeTimestamps i < COOLDOWN_MS)

instance (s : FaceCycleState) (nowVisible : Finset (Fin 6)) (now : ℕ)
    (i : Fin 6) : Decidable (faceFires s nowVisible now i) := by
  unfold faceFires; infer_instance

/-- One tick of the Face Cycling Engine loop. The source iterates over the
current visible set; every iteration reads only pre-tick state and writes
only its own face slot (plus the counter), so the loop is embedded as an
independent per-face conditional update. `imageCount` is
`props.images.length`. -/
def cycleStep (imageCount : ℕ) (s : FaceCycleState)
    (nowVisible : Finset (Fin 6)) (now : ℕ) : FaceCycleState where
  previouslyVisibleFaces := nowVisible
  faceImageIndices := fun i =>
    if faceFires s nowVisible now i then (s.faceImageIndices i + 1) % imageCount
    else s.faceImageIndices i
  faceChangeTimestamps := fun i =>
    if faceFires s nowVisible now i then now else s.faceChangeTimestamps i
  totalImageCycles :=
    s.totalImageCycles + (Finset.univ.filter (faceFires s nowVisible now)).card

/-! Orientation Controller: drag and momentum (MagicCube.vue lines
183-208 and 483-538). -/

/-- Module-level mutable motion state of the Orientation Controller. -/
structure MotionState where
  lastDragDeltaX : ℚ
  lastDragDeltaY : ℚ
  momentumX : ℚ
  momentumY : ℚ
deriving DecidableEq

/-- Gesture Source sample consumed by one tick. -/
structure TickInput where
  isDragging : Bool
  dragDeltaX : ℚ
  dragDeltaY : ℚ
deriving DecidableEq

/-- The drag/momentum phase of animate (lines 487-521): returns the
updated motion state together with the pair
(applyRotationX, applyRotationY) used in the world-axis rotation that is
then slerped into the cube quaternion. -/
def motionPhase (s : MotionState) (inp : TickInput) :
    MotionState × ℚ × ℚ :=
  if inp.isDragging then
    let applyRotationX := inp.dragDeltaY * DRAG_SENSITIVITY * DEG_TO_RAD
    let applyRotationY := inp.dragDeltaX * DRAG_SENSITIVITY * DEG_TO_RAD
    let isMovingX := (1 : ℚ) / 10 < |inp.dragDeltaY - s.lastDragDeltaY|
    let isMovingY := (1 : ℚ) / 10 < |inp.dragDeltaX - s.lastDragDeltaX|
    let isFastMovementX := isMovingX ∧ MOMENTUM_MINIMUM < |applyRotationX|
    let isFastMovementY := isMovingY ∧ MOMENTUM_MINIMUM < |applyRotationY|
    (⟨inp.dragDeltaX, inp.dragDeltaY,
      if isFastMovementX then applyRotationX * MOMENTUM_SCALE else 0,
      if isFastMovementY then applyRotationY * MOMENTUM_SCALE else 0⟩,
     applyRotationX, applyRotationY)
  else
    if MOMENTUM_THRESHOLD < |s.momentumX| ∨ MOMENTUM_THRESHOLD < |s.momentumY| then
      (⟨0, 0, s.momentumX * MOMENTUM_DECAY, s.momentumY * MOMENTUM_DECAY⟩,
       s.momentumX, s.momentumY)
    else
      (⟨0, 0, s.momentumX, s.momentumY⟩, 0, 0)

/-- Iterated ticks with the drag inactive (the non-drag branch reads no
drag deltas). -/
def iterateIdle (s : MotionState) : ℕ → MotionState
  | 0 => s
  | n + 1 => (motionPhase (iterateIdle s n) ⟨false, 0, 0⟩).1

/-! Showcase Sequencer (MagicCube.vue lines 227-304, 541-591, 681-754). -/

/-- Showcase run state and configuration refs. Sequence entries are
integers so that malformed configurations (such as -1) are representable;
valid entries lie in 0..5. Times are performance.now milliseconds. -/
structure ShowcaseState where
  isShowcaseActive : Bool
  isShowcasePaused : Bool
  showcaseCurrentIndex : ℕ
  showcaseAccumulatedTime : ℚ
  lastShowcaseFrameTime : ℚ
  showcaseSequence : List ℤ
  showcaseFaceDuration : ℚ
  showcaseLoop : Bool
  showcaseRotationSpeed : ℚ
deriving DecidableEq

/-- Events emitted through the component emit declaration. -/
inductive ShowcaseEvent
  | started
  | stopped
  | paused
  | resumed
  | completed
deriving DecidableEq

/-- Which of the four possible sources drives a quaternion write. -/
inductive Driver
  | drag
  | momentum
  | showcase
  | idle
deriving DecidableEq

/-- A write to cube.quaternion performed during one animate tick, recorded
with the arguments the source passes. `baseSlerp` is the unconditional
`cube.quaternion.slerp(rotationHelper.quaternion, SLERP_FACTOR)` toward
the target quaternion rotated by (applyRotationX, applyRotationY), tagged
with the branch that produced those rotations; `showcaseSlerp` is
`cube.quaternion.slerp(calculateRotationForFace(target), rotationSpeed)`. -/
inductive OrientWrite
  | baseSlerp (driver : Driver) (applyRotationX applyRotationY : ℚ)
  | showcaseSlerp (targetFace : ℤ)
deriving DecidableEq

/-- The driver of a recorded write. -/
def writeDriver : OrientWrite → Driver
  | .baseSlerp d _ _ => d
  | .showcaseSlerp _ => .showcase

/-- The computed ref showcaseTargetFace: falls back to face 0 when the
showcase is inactive or the sequence is empty. -/
def showcaseTargetFace (s : ShowcaseState) : ℤ :=
  if s.isShowcaseActive = false ∨ s.showcaseSequence = [] then 0
  else s.showcaseSequence.getD s.showcaseCurrentIndex 0

/-- The showcase block of animate (lines 541-591): delta-time
accumulation, sequence advance, completion, and the showcase rotation
write. Returns the new state, the emitted events, and the quaternion
writes performed by this block. -/
def showcasePhase (s : ShowcaseState) (currentTime : ℚ) :
    ShowcaseState × List ShowcaseEvent × List OrientWrite :=
  if s.isShowcaseActive = true ∧ s.showcaseSequence ≠ [] then
    let lastT := if s.lastShowcaseFrameTime = 0 then currentTime
                 else s.lastShowcaseFrameTime
    if s.isShowcasePaused = false then
      let deltaTime := currentTime - lastT
      let acc := s.showcaseAccumulatedTime + deltaTime
      if s.showcaseFaceDuration < acc then
        let newIndex := (s.showcaseCurrentIndex + 1) % s.showcaseSequence.length
        let completed := newIndex = 0 ∧ s.showcaseLoop = false
        let s' : ShowcaseState :=
          { s with
            isShowcaseActive := if completed then false else true
            showcaseCurrentIndex := newIndex
            showcaseAccumulatedTime := 0
            lastShowcaseFrameTime := if completed then 0 else currentTime }
        (s', if completed then [.completed] else [],
         [.showcaseSlerp (showcaseTargetFace s')])
      else
        let s' : ShowcaseState :=
          { s with
            showcaseAccumulatedTime := acc
            lastShowcaseFrameTime := currentTime }
        (s', [], [.showcaseSlerp (showcaseTargetFace s')])
    else
      let s' : ShowcaseState := { s with lastShowcaseFrameTime := currentTime }
      (s', [], [.showcaseSlerp (showcaseTargetFace s')])
  else
    ({ s with lastShowcaseFrameTime := 0 }, [], [])

/-- Classification of the unconditional base slerp by the branch that
computed its rotation arguments: drag input, momentum above threshold, or
idle (zero rotation toward the held target). -/
def baseDriverOf (m : MotionState) (inp : TickInput) : Driver :=
  if inp.isDragging then .drag
  else if MOMENTUM_THRESHOLD < |m.momentumX| ∨ MOMENTUM_THRESHOLD < |m.momentumY|
    then .momentum
  else .idle

/-- Result of the rotation portion of one animate tick. -/
structure TickResult where
  motion : MotionState
  showcase : ShowcaseState
  events : List ShowcaseEvent
  writes : List OrientWrite

/-- The rotation portion of one animate tick, in source order: the
drag/momentum phase with its unconditional slerp write, then the showcase
block with its writes. -/
def animateRotationTick (m : MotionState) (sc : ShowcaseState)
    (inp : TickInput) (currentTime : ℚ) : TickResult :=
  let mp := motionPhase m inp
  let sp := showcasePhase sc currentTime
  { motion := mp.1
    showcase := sp.1
    events := sp.2.1
    writes := .baseSlerp (baseDriverOf m inp) mp.2.1 mp.2.2 :: sp.2.2 }

/-- The drivers of the quaternion writes performed in one tick. -/
def tickDrivers (m : MotionState) (sc : ShowcaseState) (inp : TickInput)
    (currentTime : ℚ) : List Driver :=
  (animateRotationTick m sc inp currentTime).writes.map writeDriver

/-! Host-facing showcase API (MagicCube.vue lines 272-304 and 681-754). -/

/-- The showcaseMode prop. -/
structure ShowcaseProps where
  enabled : Bool
  sequence : List ℤ
  faceDuration : Option ℚ
  autoStart : Option Bool
  loop : Option Bool
  rotationSpeed : Option ℚ
deriving DecidableEq

/-- Component state needed by the showcase API: the sequencer state plus
the cube orientation and target orientation quaternions (the API functions
never touch the quaternions; carrying them makes that provable). -/
structure ComponentState where
  showcase : ShowcaseState
  cubeQuaternion : Quat
  targetQuaternion : Quat
deriving DecidableEq

/-- initShowcaseMode (lines 272-304): validates the configured sequence,
stores the configuration, and auto-starts when requested. The Bool records
whether a console.warn or console.error diagnostic was emitted. -/
def initShowcaseMode (props : Option ShowcaseProps) (st : ComponentState)
    (now : ℚ) : ComponentState × Bool :=
  match props with
  | none => (st, false)
  | some p =>
    if p.enabled = false then (st, false)
    else if p.sequence = [] then (st, true)
    else if (p.sequence.filter fun f => decide (f < 0 ∨ 5 < f)) ≠ [] then (st, true)
    else
      let st1 : ComponentState :=
        { st with
          showcase :=
            { st.showcase with
              showcaseSequence := p.sequence
              showcaseFaceDuration := p.faceDuration.getD 3000
              showcaseLoop := p.loop.getD true
              showcaseRotationSpeed := p.rotationSpeed.getD (1 / 50) } }
      if p.autoStart.getD false then
        ({ st1 with
           showcase :=
             { st1.showcase with
               isShowcaseActive := true
               showcaseCurrentIndex := 0
               showcaseAccumulatedTime := 0
               lastShowcaseFrameTime := now } }, false)
      else (st1, false)

/-- startShowcase (lines 681-698): refuses when the mode is not enabled or
the configured sequence is empty; otherwise activates the sequencer and
emits showcaseStarted. The Bool records a refusal diagnostic. -/
def startShowcase (props : Option ShowcaseProps) (st : ComponentState)
    (now : ℚ) : ComponentState × List ShowcaseEvent × Bool :=
  match props with
  | none => (st, [], true)
  | some p =>
    if p.enabled = false then (st, [], true)
    else if st.showcase.showcaseSequence = [] then (st, [], true)
    else
      ({ st with
         showcase :=
           { st.showcase with
             isShowcaseActive := true
             showcaseCurrentIndex := 0
             showcaseAccumulatedTime := 0
             lastShowcaseFrameTime := now } }, [.started], false)

/-- pauseShowcase (lines 727-735): no-op with a warning when not active. -/
def pauseShowcase (s : ShowcaseState) : ShowcaseState × List ShowcaseEvent × Bool :=
  if s.isShowcaseActive = false then (s, [], true)
  else ({ s with isShowcasePaused := true }, [.paused], false)

/-- resumeShowcase (lines 741-754): no-op with a warning when not active
or not paused; on success clears the pause flag and re-anchors the
delta-time baseline to now. -/
def resumeShowcase (s : ShowcaseState) (now : ℚ) :
    ShowcaseState × List ShowcaseEvent × Bool :=
  if s.isShowcaseActive = false then (s, [], true)
  else if s.isShowcasePaused = false then (s, [], true)
  else ({ s with isShowcasePaused := false, lastShowcaseFrameTime := now },
        [.resumed], false)

/-- The initial showcase state from the ref declarations. -/
def initialShowcaseState : ShowcaseState where
  isShowcaseActive := false
  isShowcasePaused := false
  showcaseCurrentIndex := 0
  showcaseAccumulatedTime := 0
  lastShowcaseFrameTime := 0
  showcaseSequence := []
  showcaseFaceDuration := 3000
  showcaseLoop := true
  showcaseRotationSpeed := 1 / 50

/-! Material reordering (unnamed copy of the component, lines 249-251 and
524-543, and src/utils/materialReordering.spec.ts). -/

/-- Translation table accounting for the material reordering: swaps the
adjacent index pairs 0-1, 2-3 and 4-5. JavaScript remainder and Lean emod
agree on the evenness test for every integer. -/
def translateIndex (i : ℤ) : ℤ := if i % 2 = 0 then i + 1 else i - 1

/-- The reordered material array [m1, m0, m3, m2, m5, m4]. -/
def reorderedMaterials {α : Type} (materials : Fin 6 → α) : Fin 6 → α :=
  ![materials 1, materials 0, materials 3, materials 2,
    materials 5, materials 4]

/-! Helper lemmas. -/

/-- Membership in the insert-if fold used by the visibility loop. -/
theorem mem_foldl_insertIf (p : Fin 6 → Prop) [DecidablePred p]
    (l : List (Fin 6)) :
    ∀ (s0 : Finset (Fin 6)) (i : Fin 6),
      i ∈ l.foldl (fun visible j => if p j then insert j visible else visible) s0 ↔
        i ∈ s0 ∨ (i ∈ l ∧ p i) := by
  induction l with
  | nil => simp
  | cons a t ih =>
    intro s0 i
    simp only [List.foldl_cons, ih, List.mem_cons]
    by_cases hpa : p a
    · by_cases hia : i = a
      · subst hia; simp [hpa]
      · simp [hpa, hia]
    · by_cases hia : i = a
      · subst hia; simp [hpa]
      · simp [hpa, hia]

/-- The visibility loop computes exactly the spec-side filtered set. -/
theorem getVisibleFaces_eq_spec (q : Quat) :
    getVisibleFaces q = visibleFacesSpec q := by
  ext i
  unfold getVisibleFaces visibleFacesSpec
  rw [mem_foldl_insertIf (fun j => 0 < dot (applyQuaternion q (faceNormals j)) cameraDirection)]
  simp [List.mem_finRange]

/-- Rotation by a quaternion, in the source formula, is linear in the
vector: it sends the negation of a vector to the negation of its image. -/
theorem applyQuaternion_negVec (q : Quat) (v : Vec3) :
    applyQuaternion q (negVec v) = negVec (applyQuaternion q v) := by
  simp only [applyQuaternion, negVec, Vec3.mk.injEq]
  refine ⟨by ring, by ring, by ring⟩

/-- Dot product with a negated first argument. -/
theorem dot_negVec (v c : Vec3) : dot (negVec v) c = -dot v c := by
  simp only [dot, negVec]; ring

/-- A subset of the six faces that avoids one face of each opposite pair
has at most three elements. -/
theorem card_le_three_of_pairs (s : Finset (Fin 6))
    (h01 : ¬((0 : Fin 6) ∈ s ∧ (1 : Fin 6) ∈ s))
    (h23 : ¬((2 : Fin 6) ∈ s ∧ (3 : Fin 6) ∈ s))
    (h45 : ¬((4 : Fin 6) ∈ s ∧ (5 : Fin 6) ∈ s)) : s.card ≤ 3 := by
  revert h01 h23 h45
  revert s
  decide

/-- Justification for omitting worldNormal.normalize() from the rational
visibility model: normalizing a vector (THREE normalize divides by the
length, or by 1 when the length is zero) never changes the sign of a
subsequent dot product. Stated over the reals, where the square root
lives. -/
theorem dot_normalize_pos_iff (x y z cx cy cz : ℝ) :
    (0 < x / (if Real.sqrt (x * x + y * y + z * z) = 0 then 1
              else Real.sqrt (x * x + y * y + z * z)) * cx
       + y / (if Real.sqrt (x * x + y * y + z * z) = 0 then 1
              else Real.sqrt (x * x + y * y + z * z)) * cy
       + z / (if Real.sqrt (x * x + y * y + z * z) = 0 then 1
              else Real.sqrt (x * x + y * y + z * z)) * cz)
    ↔ 0 < x * cx + y * cy + z * cz := by
  by_cases h0 : Real.sqrt (x * x + y * y + z * z) = 0
  · have hsum : x * x + y * y + z * z ≤ 0 := by
      by_contra hpos
      push_neg at hpos
      exact absurd h0 (ne_of_gt (Real.sqrt_pos.mpr hpos))
    have hx : x = 0 := by nlinarith [sq_nonneg x, sq_nonneg y, sq_nonneg z]
    have hy : y = 0 := by nlinarith [sq_nonneg x, sq_nonneg y, sq_nonneg z]
    have hz : z = 0 := by nlinarith [sq_nonneg x, sq_nonneg y, sq_nonneg z]
    simp [h0, hx, hy, hz]
  · have hpos : 0 < Real.sqrt (x * x + y * y + z * z) :=
      lt_of_le_of_ne (Real.sqrt_nonneg _) (Ne.symm h0)
    rw [if_neg h0]
    have hrw : x / Real.sqrt (x * x + y * y + z * z) * cx
        + y / Real.sqrt (x * x + y * y + z * z) * cy
        + z / Real.sqrt (x * x + y * y + z * z) * cz
        = (x * cx + y * cy + z * cz) / Real.sqrt (x * x + y * y + z * z) := by
      ring
    rw [hrw, lt_div_iff₀ hpos, zero_mul]

/-- At the identity orientation only the back face (index 5, local normal
-Z, which then points at the camera) is visible. -/
theorem visible_idQuat : getVisibleFaces idQuat = {5} := by
  norm_num [getVisibleFaces, List.finRange, List.range, List.range.loop,
    dot, applyQuaternion, faceNormals, cameraDirection, idQuat]
  decide

/-- C1: the code evaluated at the failing input. previouslyVisibleFaces
is initialized to the EMPTY set (not seeded with the tick-0 visible set)
and the change timestamps start at zero, so at the identity orientation
the face visible at tick 0 fires an image advance on the very first tick
(with any realistic Date.now clock value, here 1000000 ms) - contradicting
both the claim and the repository documentation, which lists the initial
load as a handled edge case where initially visible faces do not change. -/
theorem C1_counterexample :
    initialFaceCycleState.previouslyVisibleFaces = ∅ ∧
    (5 : Fin 6) ∈ getVisibleFaces idQuat ∧
    (cycleStep 6 initialFaceCycleState (getVisibleFaces idQuat) 1000000).totalImageCycles = 1 ∧
    (cycleStep 6 initialFaceCycleState (getVisibleFaces idQuat) 1000000).faceImageIndices 5 = 0 ∧
    initialFaceCycleState.faceImageIndices 5 = 5 := by
  rw [visible_idQuat]
  decide

/-- General form of the tick-0 behavior: on the first tick after
initialization the previous visible set is the empty set, so every face
visible at tick 0 fires an image advance, provided the tick-0 clock value
is at least COOLDOWN_MS (for Date.now it always is): the cycle counter
grows by the size of the visible set and each visible face advances its
image index and records the tick time. -/
theorem firstTick_visible_faces_fire (q : Quat) (now : ℕ) (imageCount : ℕ)
    (h : COOLDOWN_MS ≤ now) :
    (cycleStep imageCount initialFaceCycleState (getVisibleFaces q) now).totalImageCycles
        = (getVisibleFaces q).card ∧
    ∀ i ∈ getVisibleFaces q,
      (cycleStep imageCount initialFaceCycleState (getVisibleFaces q) now).faceImageIndices i
          = (i.val + 1) % imageCount ∧
      (cycleStep imageCount initialFaceCycleState (getVisibleFaces q) now).faceChangeTimestamps i
          = now := by
  have hf : ∀ i : Fin 6,
      faceFires initialFaceCycleState (getVisibleFaces q) now i ↔ i ∈ getVisibleFaces q := by
    intro i
    simp only [faceFires, initialFaceCycleState, Finset.not_mem_empty, not_false_iff,
      Nat.sub_zero, Nat.not_lt]
    constructor
    · exact fun hc => hc.1
    · exact fun hi => ⟨hi, trivial, h⟩
  have hfilter : Finset.univ.filter (faceFires initialFaceCycleState (getVisibleFaces q) now)
      = getVisibleFaces q := by
    ext i; simp [hf]
  refine ⟨?_, ?_⟩
  · show initialFaceCycleState.totalImageCycles
        + (Finset.univ.filter (faceFires initialFaceCycleState (getVisibleFaces q) now)).card
      = (getVisibleFaces q).card
    rw [hfilter]
    simp [initialFaceCycleState]
  intro i hi
  constructor
  · show (if faceFires initialFaceCycleState (getVisibleFaces q) now i
          then (initialFaceCycleState.faceImageIndices i + 1) % imageCount
          else initialFaceCycleState.faceImageIndices i) = (i.val + 1) % imageCount
    rw [if_pos ((hf i).mpr hi)]
    rfl
  · show (if faceFires initialFaceCycleState (getVisibleFaces q) now i
          then now else initialFaceCycleState.faceChangeTimestamps i) = now
    rw [if_pos ((hf i).mpr hi)]

/-- The tick-0 firing behavior at the identity orientation and tick-0
clock 1000000 ms: face 5 advances from image 5 to image 0 and records the
tick time. -/
theorem firstTick_visible_faces_fire_witness :
    (cycleStep 6 initialFaceCycleState (getVisibleFaces idQuat) 1000000).faceImageIndices 5 = 0 ∧
    (cycleStep 6 initialFaceCycleState (getVisibleFaces idQuat) 1000000).faceChangeTimestamps 5 = 1000000 := by
  have h := (firstTick_visible_faces_fire idQuat 1000000 6 (by decide)).2 5
    (by rw [visible_idQuat]; decide)
  simpa using h

/-- C3: outside showcase mode, two rising-edge transitions of the same
face separated by less than COOLDOWN_MS produce exactly one image advance:
the first edge fires (its cooldown having elapsed), the intermediate
disappearance does not fire, and the second edge is suppressed because
less than 3000 ms elapsed since the timestamp the first edge recorded, so
the image index reflects a single advance. -/
theorem C3_cooldown_single_advance
    (imageCount : ℕ) (s : FaceCycleState) (f : Fin 6)
    (vis1 vis2 vis3 : Finset (Fin 6)) (t1 t2 t3 : ℕ)
    (h0 : f ∉ s.previouslyVisibleFaces) (h1 : f ∈ vis1)
    (hcool : s.faceChangeTimestamps f + COOLDOWN_MS ≤ t1)
    (h2 : f ∉ vis2) (h3 : f ∈ vis3)
    (hlt : t3 < t1 + COOLDOWN_MS) :
    faceFires s vis1 t1 f ∧
    ¬ faceFires (cycleStep imageCount s vis1 t1) vis2 t2 f ∧
    ¬ faceFires (cycleStep imageCount (cycleStep imageCount s vis1 t1) vis2 t2) vis3 t3 f ∧
    (cycleStep imageCount (cycleStep imageCount (cycleStep imageCount s vis1 t1) vis2 t2)
        vis3 t3).faceImageIndices f
      = (s.faceImageIndices f + 1) % imageCount := by
  have hf1 : faceFires s vis1 t1 f := ⟨h1, h0, by omega⟩
  have hts1 : (cycleStep imageCount s vis1 t1).faceChangeTimestamps f = t1 := by
    simp [cycleStep, if_pos hf1]
  have hidx1 : (cycleStep imageCount s vis1 t1).faceImageIndices f
      = (s.faceImageIndices f + 1) % imageCount := by
    simp [cycleStep, if_pos hf1]
  have hf2 : ¬ faceFires (cycleStep imageCount s vis1 t1) vis2 t2 f :=
    fun hc => h2 hc.1
  have hts2 : (cycleStep imageCount (cycleStep imageCount s vis1 t1) vis2 t2).faceChangeTimestamps f
      = t1 := by
    show (if faceFires (cycleStep imageCount s vis1 t1) vis2 t2 f then t2
          else (cycleStep imageCount s vis1 t1).faceChangeTimestamps f) = t1
    rw [if_neg hf2, hts1]
  have hidx2 : (cycleStep imageCount (cycleStep imageCount s vis1 t1) vis2 t2).faceImageIndices f
      = (s.faceImageIndices f + 1) % imageCount := by
    show (if faceFires (cycleStep imageCount s vis1 t1) vis2 t2 f
          then ((cycleStep imageCount s vis1 t1).faceImageIndices f + 1) % imageCount
          else (cycleStep imageCount s vis1 t1).faceImageIndices f)
        = (s.faceImageIndices f + 1) % imageCount
    rw [if_neg hf2, hidx1]
  have hf3 : ¬ faceFires (cycleStep imageCount (cycleStep imageCount s vis1 t1) vis2 t2)
      vis3 t3 f := by
    intro hc
    apply hc.2.2
    rw [hts2]
    simp only [COOLDOWN_MS] at hlt ⊢
    omega
  refine ⟨hf1, hf2, hf3, ?_⟩
  show (if faceFires (cycleStep imageCount (cycleStep imageCount s vis1 t1) vis2 t2) vis3 t3 f
        then ((cycleStep imageCount (cycleStep imageCount s vis1 t1) vis2 t2).faceImageIndices f + 1)
              % imageCount
        else (cycleStep imageCount (cycleStep imageCount s vis1 t1) vis2 t2).faceImageIndices f)
      = (s.faceImageIndices f + 1) % imageCount
  rw [if_neg hf3, hidx2]

/-- Witness for C3: from the initial state, face 5 rises at t=5000 and
fires, disappears at t=5600, rises again at t=6000 (less than 3000 ms
after the first edge) and is suppressed, leaving a single advance. -/
theorem C3_cooldown_single_advance_witness :
    faceFires initialFaceCycleState {5} 5000 5 ∧
    ¬ faceFires (cycleStep 6 initialFaceCycleState {5} 5000) ∅ 5600 5 ∧
    ¬ faceFires (cycleStep 6 (cycleStep 6 initialFaceCycleState {5} 5000) ∅ 5600) {5} 6000 5 ∧
    (cycleStep 6 (cycleStep 6 (cycleStep 6 initialFaceCycleState {5} 5000) ∅ 5600)
        {5} 6000).faceImageIndices 5 = 0 := by
  have h := C3_cooldown_single_advance 6 initialFaceCycleState 5 {5} ∅ {5} 5000 5600 6000
    (by decide) (by decide) (by decide) (by decide) (by decide) (by decide)
  simpa using h

/-- Unfolding equation for the drag branch of the motion phase. -/
theorem motionPhase_drag (s : MotionState) (dx dy : ℚ) :
    motionPhase s ⟨true, dx, dy⟩ =
      (⟨dx, dy,
        if (1 : ℚ) / 10 < |dy - s.lastDragDeltaY| ∧
            MOMENTUM_MINIMUM < |dy * DRAG_SENSITIVITY * DEG_TO_RAD|
          then dy * DRAG_SENSITIVITY * DEG_TO_RAD * MOMENTUM_SCALE else 0,
        if (1 : ℚ) / 10 < |dx - s.lastDragDeltaX| ∧
            MOMENTUM_MINIMUM < |dx * DRAG_SENSITIVITY * DEG_TO_RAD|
          then dx * DRAG_SENSITIVITY * DEG_TO_RAD * MOMENTUM_SCALE else 0⟩,
       dy * DRAG_SENSITIVITY * DEG_TO_RAD, dx * DRAG_SENSITIVITY * DEG_TO_RAD) := rfl

/-- Unfolding equation for the non-drag branch of the motion phase. -/
theorem motionPhase_idle (s : MotionState) (dx dy : ℚ) :
    motionPhase s ⟨false, dx, dy⟩ =
      if MOMENTUM_THRESHOLD < |s.momentumX| ∨ MOMENTUM_THRESHOLD < |s.momentumY| then
        (⟨0, 0, s.momentumX * MOMENTUM_DECAY, s.momentumY * MOMENTUM_DECAY⟩,
         s.momentumX, s.momentumY)
      else (⟨0, 0, s.momentumX, s.momentumY⟩, 0, 0) := rfl

/-- A motion state with zero momentum stays at zero momentum across a
non-drag tick and contributes zero rotation. -/
theorem motionPhase_zero_momentum (s : MotionState)
    (hX : s.momentumX = 0) (hY : s.momentumY = 0) :
    (motionPhase s ⟨false, 0, 0⟩).1.momentumX = 0 ∧
    (motionPhase s ⟨false, 0, 0⟩).1.momentumY = 0 ∧
    (motionPhase s ⟨false, 0, 0⟩).2 = (0, 0) := by
  have hcond : ¬ (MOMENTUM_THRESHOLD < |s.momentumX| ∨ MOMENTUM_THRESHOLD < |s.momentumY|) := by
    rw [hX, hY]
    norm_num [MOMENTUM_THRESHOLD]
  rw [motionPhase_idle, if_neg hcond]
  exact ⟨hX, hY, rfl⟩

/-- C5: for every orientation quaternion the Visibility Evaluator returns
exactly the faces whose rotated local normal has strictly positive dot
product with the camera view direction; an exactly edge-on face (dot
product zero) is excluded; and when the camera or the cube do not exist
yet, the guarded entry point returns the empty set with a diagnostic and
never throws (it is a total function). -/
theorem C5_visibility_evaluator (q : Quat) :
    getVisibleFaces q = visibleFacesSpec q ∧
    (∀ i : Fin 6, dot (applyQuaternion q (faceNormals i)) cameraDirection = 0 →
      i ∉ getVisibleFaces q) ∧
    (∀ cameraReady cubeReady : Bool, cameraReady = false ∨ cubeReady = false →
      getVisibleFacesChecked cameraReady cubeReady q = (∅, true)) ∧
    getVisibleFacesChecked true true q = (getVisibleFaces q, false) := by
  refine ⟨getVisibleFaces_eq_spec q, ?_, ?_, ?_⟩
  · intro i h hmem
    rw [getVisibleFaces_eq_spec] at hmem
    rw [visibleFacesSpec, Finset.mem_filter] at hmem
    rw [h] at hmem
    exact lt_irrefl 0 hmem.2
  · intro cameraReady cubeReady h
    rw [getVisibleFacesChecked, if_pos h]
  · rw [getVisibleFacesChecked, if_neg (by simp)]

/-- Witness for C5 at the identity orientation: face 0 (normal +X) is
exactly edge-on and excluded, and the guard returns the empty set when the
camera is missing. -/
theorem C5_visibility_evaluator_witness :
    (0 : Fin 6) ∉ getVisibleFaces idQuat ∧
    getVisibleFacesChecked false true idQuat = (∅, true) ∧
    getVisibleFacesChecked true true idQuat = (getVisibleFaces idQuat, false) :=
  ⟨(C5_visibility_evaluator idQuat).2.1 0
      (by norm_num [dot, applyQuaternion, faceNormals, cameraDirection, idQuat]),
   (C5_visibility_evaluator idQuat).2.2.1 false true (Or.inl rfl),
   (C5_visibility_evaluator idQuat).2.2.2⟩

/-- C9: for every orientation quaternion the visible set never contains
both faces of an opposite pair (0 and 1, 2 and 3, or 4 and 5), because the
two rotated normals are exact negations; consequently at most three faces
are visible at any instant. -/
theorem C9_no_opposite_pair_and_card (q : Quat) :
    (¬ ((0 : Fin 6) ∈ getVisibleFaces q ∧ (1 : Fin 6) ∈ getVisibleFaces q)) ∧
    (¬ ((2 : Fin 6) ∈ getVisibleFaces q ∧ (3 : Fin 6) ∈ getVisibleFaces q)) ∧
    (¬ ((4 : Fin 6) ∈ getVisibleFaces q ∧ (5 : Fin 6) ∈ getVisibleFaces q)) ∧
    (getVisibleFaces q).card ≤ 3 := by
  have hmem : ∀ i : Fin 6, i ∈ getVisibleFaces q ↔
      0 < dot (applyQuaternion q (faceNormals i)) cameraDirection := by
    intro i
    rw [getVisibleFaces_eq_spec, visibleFacesSpec, Finset.mem_filter]
    simp
  have hpair : ∀ i j : Fin 6, faceNormals j = negVec (faceNormals i) →
      ¬ (i ∈ getVisibleFaces q ∧ j ∈ getVisibleFaces q) := by
    intro i j hij ⟨hi, hj⟩
    rw [hmem] at hi hj
    rw [hij, applyQuaternion_negVec, dot_negVec] at hj
    linarith
  have h01 := hpair 0 1 (by decide)
  have h23 := hpair 2 3 (by decide)
  have h45 := hpair 4 5 (by decide)
  exact ⟨h01, h23, h45, card_le_three_of_pairs _ h01 h23 h45⟩

/-- C10: translateIndex swaps the adjacent pairs 0-1, 2-3 and 4-5, maps
the face set 0..5 onto itself, and is an involution there; composing the
translation with the initial material reordering (which places material
translateIndex(i) at face i) restores the identity face-to-image
mapping. -/
theorem C10_translateIndex_involution :
    (∀ i : ℤ, 0 ≤ i → i ≤ 5 → translateIndex (translateIndex i) = i) ∧
    (Finset.Icc (0 : ℤ) 5).image translateIndex = Finset.Icc 0 5 ∧
    (∀ (mats : Fin 6 → ℕ) (i : Fin 6) (h : (translateIndex (i : ℤ)).toNat < 6),
      reorderedMaterials mats i = mats ⟨(translateIndex (i : ℤ)).toNat, h⟩) ∧
    (∀ (mats : Fin 6 → ℕ) (i : Fin 6),
      reorderedMaterials (reorderedMaterials mats) i = mats i) := by
  refine ⟨?_, by decide, ?_, ?_⟩
  · intro i h0 h5
    interval_cases i <;> decide
  · intro mats i h
    fin_cases i <;> rfl
  · intro mats i
    fin_cases i <;> rfl

/-- Witness for C10 at concrete inputs: the involution at 3 and the
reordering translation for face 0. -/
theorem C10_translateIndex_involution_witness :
    translateIndex (translateIndex 3) = 3 ∧
    reorderedMaterials (fun k : Fin 6 => (k : ℕ)) 0 = 1 := by
  refine ⟨C10_translateIndex_involution.1 3 (by decide) (by decide), ?_⟩
  have h := C10_translateIndex_involution.2.2.1 (fun k : Fin 6 => (k : ℕ)) 0 (by decide)
  simpa [translateIndex] using h

/-- C4: if the cumulative drag delta stays unchanged within the movement
threshold (0.1 px) across two consecutive drag ticks before release, then
the momentum vector is exactly zero after the second of those ticks, and
on every subsequent non-drag tick it stays exactly zero and contributes
zero momentum rotation. -/
theorem C4_held_drag_zero_momentum (s : MotionState) (d1x d1y d2x d2y : ℚ)
    (hx : |d2x - d1x| ≤ 1 / 10) (hy : |d2y - d1y| ≤ 1 / 10) :
    ((motionPhase (motionPhase s ⟨true, d1x, d1y⟩).1 ⟨true, d2x, d2y⟩).1).momentumX = 0 ∧
    ((motionPhase (motionPhase s ⟨true, d1x, d1y⟩).1 ⟨true, d2x, d2y⟩).1).momentumY = 0 ∧
    ∀ n : ℕ,
      (iterateIdle ((motionPhase (motionPhase s ⟨true, d1x, d1y⟩).1 ⟨true, d2x, d2y⟩).1)
          n).momentumX = 0 ∧
      (iterateIdle ((motionPhase (motionPhase s ⟨true, d1x, d1y⟩).1 ⟨true, d2x, d2y⟩).1)
          n).momentumY = 0 ∧
      (motionPhase
          (iterateIdle ((motionPhase (motionPhase s ⟨true, d1x, d1y⟩).1 ⟨true, d2x, d2y⟩).1) n)
          ⟨false, 0, 0⟩).2 = (0, 0) := by
  have hs1 : (motionPhase s ⟨true, d1x, d1y⟩).1.lastDragDeltaX = d1x ∧
      (motionPhase s ⟨true, d1x, d1y⟩).1.lastDragDeltaY = d1y := by
    rw [motionPhase_drag]
    exact ⟨rfl, rfl⟩
  have hmX : ((motionPhase (motionPhase s ⟨true, d1x, d1y⟩).1 ⟨true, d2x, d2y⟩).1).momentumX = 0 := by
    rw [motionPhase_drag]
    show (if (1 : ℚ) / 10 < |d2y - (motionPhase s ⟨true, d1x, d1y⟩).1.lastDragDeltaY| ∧
            MOMENTUM_MINIMUM < |d2y * DRAG_SENSITIVITY * DEG_TO_RAD|
          then d2y * DRAG_SENSITIVITY * DEG_TO_RAD * MOMENTUM_SCALE else 0) = 0
    rw [hs1.2, if_neg]
    intro hc
    exact absurd hy (not_le.mpr hc.1)
  have hmY : ((motionPhase (motionPhase s ⟨true, d1x, d1y⟩).1 ⟨true, d2x, d2y⟩).1).momentumY = 0 := by
    rw [motionPhase_drag]
    show (if (1 : ℚ) / 10 < |d2x - (motionPhase s ⟨true, d1x, d1y⟩).1.lastDragDeltaX| ∧
            MOMENTUM_MINIMUM < |d2x * DRAG_SENSITIVITY * DEG_TO_RAD|
          then d2x * DRAG_SENSITIVITY * DEG_TO_RAD * MOMENTUM_SCALE else 0) = 0
    rw [hs1.1, if_neg]
    intro hc
    exact absurd hx (not_le.mpr hc.1)
  refine ⟨hmX, hmY, ?_⟩
  intro n
  induction n with
  | zero => exact ⟨hmX, hmY, (motionPhase_zero_momentum _ hmX hmY).2.2⟩
  | succ k ih =>
    have hstep := motionPhase_zero_momentum _ ih.1 ih.2.1
    exact ⟨hstep.1, hstep.2.1,
      (motionPhase_zero_momentum _ hstep.1 hstep.2.1).2.2⟩

/-- Witness for C4: drag held at (200, 100) for two consecutive ticks from
a state with stale momentum, then released; momentum is exactly zero and
three idle ticks later it is still zero with zero rotation applied. -/
theorem C4_held_drag_zero_momentum_witness :
    ((motionPhase (motionPhase ⟨0, 0, 5, 5⟩ ⟨true, 200, 100⟩).1 ⟨true, 200, 100⟩).1).momentumX = 0 ∧
    ((motionPhase (motionPhase ⟨0, 0, 5, 5⟩ ⟨true, 200, 100⟩).1 ⟨true, 200, 100⟩).1).momentumY = 0 ∧
    (iterateIdle ((motionPhase (motionPhase ⟨0, 0, 5, 5⟩ ⟨true, 200, 100⟩).1 ⟨true, 200, 100⟩).1)
        3).momentumX = 0 ∧
    (motionPhase
        (iterateIdle ((motionPhase (motionPhase ⟨0, 0, 5, 5⟩ ⟨true, 200, 100⟩).1 ⟨true, 200, 100⟩).1) 3)
        ⟨false, 0, 0⟩).2 = (0, 0) := by
  have h := C4_held_drag_zero_momentum ⟨0, 0, 5, 5⟩ 200 100 200 100
    (by norm_num) (by norm_num)
  exact ⟨h.1, h.2.1, (h.2.2 3).1, (h.2.2 3).2.2⟩

/-- C2 is false on the code: in a tick where the user is dragging while
the showcase is active with a nonempty sequence, the tick performs BOTH
the drag-driven base slerp (with a nonzero drag rotation, here from a
100 px horizontal delta) AND the showcase slerp, so two of the four
sources modify the orientation in the same tick, refuting the claimed
exactly-one invariant. -/
theorem C2_counterexample :
    tickDrivers ⟨0, 0, 0, 0⟩ ⟨true, false, 0, 0, 5, [0], 3000, true, 1 / 50⟩
        ⟨true, 100, 0⟩ 10
      = [Driver.drag, Driver.showcase] ∧
    (animateRotationTick ⟨0, 0, 0, 0⟩ ⟨true, false, 0, 0, 5, [0], 3000, true, 1 / 50⟩
        ⟨true, 100, 0⟩ 10).writes
      = [OrientWrite.baseSlerp Driver.drag 0 (100 * DRAG_SENSITIVITY * DEG_TO_RAD),
         OrientWrite.showcaseSlerp 0] ∧
    100 * DRAG_SENSITIVITY * DEG_TO_RAD ≠ 0 := by
  refine ⟨?_, ?_, ?_⟩
  · norm_num [tickDrivers, animateRotationTick, motionPhase_drag, showcasePhase,
      showcaseTargetFace, baseDriverOf, writeDriver]
  · norm_num [animateRotationTick, motionPhase_drag, showcasePhase,
      showcaseTargetFace, baseDriverOf]
  · norm_num [DRAG_SENSITIVITY, DEG_TO_RAD, piDouble]

/-- C2 amended: each tick performs exactly one base slerp, driven by
exactly one of drag, momentum decay or idle (in that priority); when the
showcase is active with a nonempty sequence a showcase slerp is
additionally performed after the base slerp (precedence by being applied
last), so drag and momentum are not excluded from a showcase tick. -/
theorem C2_amended_driver_per_tick (m : MotionState) (sc : ShowcaseState)
    (inp : TickInput) (t : ℚ) :
    tickDrivers m sc inp t
      = baseDriverOf m inp ::
          (if sc.isShowcaseActive = true ∧ sc.showcaseSequence ≠ [] then [Driver.showcase]
           else []) ∧
    baseDriverOf m inp ≠ Driver.showcase ∧
    (∀ d ∈ tickDrivers m sc inp t, d ≠ Driver.showcase → d = baseDriverOf m inp) := by
  have hsp : ((showcasePhase sc t).2.2).map writeDriver
      = (if sc.isShowcaseActive = true ∧ sc.showcaseSequence ≠ [] then [Driver.showcase]
         else []) := by
    unfold showcasePhase
    split_ifs with ha hb hc <;> simp [writeDriver, ha] <;>
      split <;> simp [writeDriver]
  have h1 : tickDrivers m sc inp t
      = baseDriverOf m inp ::
          (if sc.isShowcaseActive = true ∧ sc.showcaseSequence ≠ [] then [Driver.showcase]
           else []) := by
    show ((OrientWrite.baseSlerp (baseDriverOf m inp) (motionPhase m inp).2.1
          (motionPhase m inp).2.2) :: (showcasePhase sc t).2.2).map writeDriver = _
    rw [List.map_cons, hsp]
    rfl
  have h2 : baseDriverOf m inp ≠ Driver.showcase := by
    unfold baseDriverOf
    split_ifs <;> simp
  refine ⟨h1, h2, ?_⟩
  intro d hd hne
  rw [h1] at hd
  rcases List.mem_cons.mp hd with h | h
  · exact h
  · by_cases hc : sc.isShowcaseActive = true ∧ sc.showcaseSequence ≠ []
    · rw [if_pos hc] at h
      simp at h
      exact absurd h hne
    · rw [if_neg hc] at h
      simp at h

/-- Witness for the amended C2 on a concrete idle tick: the only driver of
the tick is idle, obtained through the uniqueness part of the theorem. -/
theorem C2_amended_driver_per_tick_witness :
    Driver.idle = baseDriverOf ⟨0, 0, 0, 0⟩ ⟨false, 0, 0⟩ :=
  (C2_amended_driver_per_tick ⟨0, 0, 0, 0⟩ initialShowcaseState ⟨false, 0, 0⟩ 10).2.2
    Driver.idle
    (by norm_num [tickDrivers, animateRotationTick, motionPhase_idle, showcasePhase,
      baseDriverOf, writeDriver, initialShowcaseState, MOMENTUM_THRESHOLD])
    (by decide)

/-- Projections of the showcase block on an advancing tick: active,
unpaused, initialized baseline, and the accumulated time (old value plus
the delta against the baseline) exceeds the face duration. -/
theorem showcasePhase_advance (s : ShowcaseState) (t : ℚ)
    (hact : s.isShowcaseActive = true) (hseq : s.showcaseSequence ≠ [])
    (hp : s.isShowcasePaused = false) (hlt : s.lastShowcaseFrameTime ≠ 0)
    (hdur : s.showcaseFaceDuration
        < s.showcaseAccumulatedTime + (t - s.lastShowcaseFrameTime)) :
    (showcasePhase s t).1.showcaseCurrentIndex
        = (s.showcaseCurrentIndex + 1) % s.showcaseSequence.length ∧
    (showcasePhase s t).1.showcaseAccumulatedTime = 0 ∧
    (showcasePhase s t).1.isShowcaseActive
        = (if (s.showcaseCurrentIndex + 1) % s.showcaseSequence.length = 0
              ∧ s.showcaseLoop = false
           then false else true) ∧
    (showcasePhase s t).2.1
        = (if (s.showcaseCurrentIndex + 1) % s.showcaseSequence.length = 0
              ∧ s.showcaseLoop = false
           then [ShowcaseEvent.completed] else []) := by
  obtain ⟨a, pz, idx, acc, lft, seq, dur, lp, speed⟩ := s
  simp only at hact hp hseq hlt hdur
  subst hact hp
  unfold showcasePhase
  simp [hseq, hlt, hdur]

/-- Projections of the showcase block on a non-advancing tick. -/
theorem showcasePhase_noadvance (s : ShowcaseState) (t : ℚ)
    (hact : s.isShowcaseActive = true) (hseq : s.showcaseSequence ≠ [])
    (hp : s.isShowcasePaused = false) (hlt : s.lastShowcaseFrameTime ≠ 0)
    (hdur : ¬ s.showcaseFaceDuration
        < s.showcaseAccumulatedTime + (t - s.lastShowcaseFrameTime)) :
    (showcasePhase s t).1.showcaseCurrentIndex = s.showcaseCurrentIndex ∧
    (showcasePhase s t).1.showcaseAccumulatedTime
        = s.showcaseAccumulatedTime + (t - s.lastShowcaseFrameTime) ∧
    (showcasePhase s t).1.isShowcaseActive = true ∧
    (showcasePhase s t).2.1 = [] := by
  obtain ⟨a, pz, idx, acc, lft, seq, dur, lp, speed⟩ := s
  simp only at hact hp hseq hlt hdur
  subst hact hp
  unfold showcasePhase
  simp [hseq, hlt, hdur]

/-- resumeShowcase on an active, paused sequencer clears the pause flag
and re-anchors the delta-time baseline. -/
theorem resumeShowcase_run (s : ShowcaseState) (tr : ℚ)
    (hact : s.isShowcaseActive = true) (hp : s.isShowcasePaused = true) :
    resumeShowcase s tr
      = ({ s with isShowcasePaused := false, lastShowcaseFrameTime := tr },
         [ShowcaseEvent.resumed], false) := by
  unfold resumeShowcase
  rw [if_neg (by simp [hact]), if_neg (by simp [hp])]

/-- C6: calling startShowcase with an empty configured sequence, or with
a configured sequence containing an out-of-range face id such as 6 or -1,
leaves the showcase machine Idle: initShowcaseMode refuses with a
diagnostic and stores nothing, startShowcase then refuses with a
diagnostic, no showcaseStarted event is emitted, isShowcaseActive stays
false, and neither the orientation nor the target orientation quaternion
is mutated. -/
theorem C6_malformed_sequence_rejected (p : ShowcaseProps) (st : ComponentState)
    (t1 t2 : ℚ)
    (hen : p.enabled = true)
    (hbad : p.sequence = [] ∨ ∃ f ∈ p.sequence, f < 0 ∨ 5 < f)
    (hseq : st.showcase.showcaseSequence = [])
    (hact : st.showcase.isShowcaseActive = false) :
    initShowcaseMode (some p) st t1 = (st, true) ∧
    startShowcase (some p) ((initShowcaseMode (some p) st t1).1) t2 = (st, [], true) ∧
    ((startShowcase (some p) ((initShowcaseMode (some p) st t1).1) t2).1).showcase.isShowcaseActive
      = false ∧
    ((startShowcase (some p) ((initShowcaseMode (some p) st t1).1) t2).1).cubeQuaternion
      = st.cubeQuaternion ∧
    ((startShowcase (some p) ((initShowcaseMode (some p) st t1).1) t2).1).targetQuaternion
      = st.targetQuaternion := by
  have hinit : initShowcaseMode (some p) st t1 = (st, true) := by
    unfold initShowcaseMode
    dsimp only
    rcases hbad with hempty | ⟨f, hf, hfbad⟩
    · rw [if_neg (show ¬ p.enabled = false by simp [hen]), if_pos hempty]
    · have hne : ¬ p.sequence = [] := List.ne_nil_of_mem hf
      have hmem : f ∈ p.sequence.filter (fun f => decide (f < 0 ∨ 5 < f)) :=
        List.mem_filter.mpr ⟨hf, by simpa using hfbad⟩
      have hfil : p.sequence.filter (fun f => decide (f < 0 ∨ 5 < f)) ≠ [] :=
        List.ne_nil_of_mem hmem
      rw [if_neg (show ¬ p.enabled = false by simp [hen]), if_neg hne, if_pos hfil]
  have h1 : (initShowcaseMode (some p) st t1).1 = st := by rw [hinit]
  have hstart : startShowcase (some p) st t2 = (st, [], true) := by
    unfold startShowcase
    dsimp only
    rw [if_neg (show ¬ p.enabled = false by simp [hen]), if_pos hseq]
  refine ⟨hinit, ?_, ?_, ?_, ?_⟩
  · rw [h1, hstart]
  · rw [h1, hstart]
    exact hact
  · rw [h1, hstart]
  · rw [h1, hstart]

/-- Witness for C6: configured sequence [6] with the fresh component
state; initialization and start both refuse. -/
theorem C6_malformed_sequence_rejected_witness :
    initShowcaseMode (some ⟨true, [6], none, none, none, none⟩)
        ⟨initialShowcaseState, idQuat, idQuat⟩ 1
      = (⟨initialShowcaseState, idQuat, idQuat⟩, true) ∧
    startShowcase (some ⟨true, [6], none, none, none, none⟩)
        ((initShowcaseMode (some ⟨true, [6], none, none, none, none⟩)
            ⟨initialShowcaseState, idQuat, idQuat⟩ 1).1) 2
      = (⟨initialShowcaseState, idQuat, idQuat⟩, [], true) := by
  have h := C6_malformed_sequence_rejected ⟨true, [6], none, none, none, none⟩
    ⟨initialShowcaseState, idQuat, idQuat⟩ 1 2 rfl
    (Or.inr ⟨6, by decide, by decide⟩) rfl rfl
  exact ⟨h.1, h.2.1⟩

/-- C7: on the tick where the last sequence entry has used up its face
duration and the index wraps to 0, the sequencer with loop disabled goes
Idle and emits exactly one showcaseCompleted event, while with loop
enabled it re-enters index 0, stays active and emits nothing; moreover no
tick of a looping sequencer ever emits showcaseCompleted. -/
theorem C7_completion_vs_loop :
    (∀ (s : ShowcaseState) (t : ℚ),
      s.isShowcaseActive = true → s.showcaseSequence ≠ [] →
      s.isShowcasePaused = false → s.lastShowcaseFrameTime ≠ 0 →
      s.showcaseCurrentIndex = s.showcaseSequence.length - 1 →
      s.showcaseFaceDuration
          < s.showcaseAccumulatedTime + (t - s.lastShowcaseFrameTime) →
      ((s.showcaseLoop = false →
          (showcasePhase s t).1.isShowcaseActive = false ∧
          (showcasePhase s t).2.1 = [ShowcaseEvent.completed] ∧
          (showcasePhase s t).1.showcaseCurrentIndex = 0) ∧
       (s.showcaseLoop = true →
          (showcasePhase s t).1.isShowcaseActive = true ∧
          (showcasePhase s t).2.1 = [] ∧
          (showcasePhase s t).1.showcaseCurrentIndex = 0))) ∧
    (∀ (s : ShowcaseState) (t : ℚ), s.showcaseLoop = true →
      ShowcaseEvent.completed ∉ (showcasePhase s t).2.1) := by
  constructor
  · intro s t hact hseq hp hlt hidx hdur
    have hadv := showcasePhase_advance s t hact hseq hp hlt hdur
    have hlen : s.showcaseSequence.length ≠ 0 := fun h =>
      hseq (List.length_eq_zero.mp h)
    have hwrap : (s.showcaseCurrentIndex + 1) % s.showcaseSequence.length = 0 := by
      have h1 : s.showcaseCurrentIndex + 1 = s.showcaseSequence.length := by omega
      rw [h1, Nat.mod_self]
    constructor
    · intro hloop
      refine ⟨?_, ?_, ?_⟩
      · rw [hadv.2.2.1]
        simp [hwrap, hloop]
      · rw [hadv.2.2.2]
        simp [hwrap, hloop]
      · rw [hadv.1, hwrap]
    · intro hloop
      refine ⟨?_, ?_, ?_⟩
      · rw [hadv.2.2.1]
        simp [hloop]
      · rw [hadv.2.2.2]
        simp [hloop]
      · rw [hadv.1, hwrap]
  · intro s t hloop
    unfold showcasePhase
    split_ifs <;> simp [hloop] <;> (try (split <;> simp [hloop]))

/-- Witness for C7 with the 3-entry sequence [0, 2, 4], face duration
1000 ms, index 2, accumulated 2900 ms, baseline 100 ms, tick at 116 ms:
loop disabled completes once; loop enabled re-enters index 0 silently. -/
theorem C7_completion_vs_loop_witness :
    (showcasePhase ⟨true, false, 2, 2900, 100, [0, 2, 4], 1000, false, 1 / 50⟩ 116).1.isShowcaseActive
      = false ∧
    (showcasePhase ⟨true, false, 2, 2900, 100, [0, 2, 4], 1000, false, 1 / 50⟩ 116).2.1
      = [ShowcaseEvent.completed] ∧
    (showcasePhase ⟨true, false, 2, 2900, 100, [0, 2, 4], 1000, true, 1 / 50⟩ 116).1.isShowcaseActive
      = true ∧
    (showcasePhase ⟨true, false, 2, 2900, 100, [0, 2, 4], 1000, true, 1 / 50⟩ 116).2.1 = [] ∧
    ShowcaseEvent.completed
      ∉ (showcasePhase ⟨true, false, 2, 2900, 100, [0, 2, 4], 1000, true, 1 / 50⟩ 116).2.1 := by
  have h1 := (C7_completion_vs_loop.1 ⟨true, false, 2, 2900, 100, [0, 2, 4], 1000, false, 1 / 50⟩
    116 rfl (by decide) rfl (by norm_num) (by decide) (by norm_num)).1 rfl
  have h2 := (C7_completion_vs_loop.1 ⟨true, false, 2, 2900, 100, [0, 2, 4], 1000, true, 1 / 50⟩
    116 rfl (by decide) rfl (by norm_num) (by decide) (by norm_num)).2 rfl
  have h3 := C7_completion_vs_loop.2 ⟨true, false, 2, 2900, 100, [0, 2, 4], 1000, true, 1 / 50⟩
    116 rfl
  exact ⟨h1.1, h1.2.1, h2.1, h2.2.1, h3⟩

/-- C8: the wall-clock gap spanned by a pause is never added to the
showcase accumulated time: whatever stale delta-time baseline the paused
state holds, resuming at time tr re-anchors the baseline to tr, and the
first tick after resume, at time tr + d, advances the sequence index if
and only if the pre-pause accumulated time plus the genuine post-resume
delta d exceeds the face duration. -/
theorem C8_resume_reanchors (s : ShowcaseState) (tr d : ℚ)
    (hact : s.isShowcaseActive = true) (hp : s.isShowcasePaused = true)
    (hseq : s.showcaseSequence ≠ []) (htr : tr ≠ 0) :
    ((resumeShowcase s tr).1).lastShowcaseFrameTime = tr ∧
    (s.showcaseFaceDuration < s.showcaseAccumulatedTime + d →
      (showcasePhase (resumeShowcase s tr).1 (tr + d)).1.showcaseCurrentIndex
          = (s.showcaseCurrentIndex + 1) % s.showcaseSequence.length ∧
      (showcasePhase (resumeShowcase s tr).1 (tr + d)).1.showcaseAccumulatedTime = 0) ∧
    (¬ s.showcaseFaceDuration < s.showcaseAccumulatedTime + d →
      (showcasePhase (resumeShowcase s tr).1 (tr + d)).1.showcaseCurrentIndex
          = s.showcaseCurrentIndex ∧
      (showcasePhase (resumeShowcase s tr).1 (tr + d)).1.showcaseAccumulatedTime
          = s.showcaseAccumulatedTime + d) := by
  have hres : (resumeShowcase s tr).1
      = { s with isShowcasePaused := false, lastShowcaseFrameTime := tr } := by
    rw [resumeShowcase_run s tr hact hp]
  have hdelta : tr + d - tr = d := by ring
  refine ⟨by rw [hres], ?_, ?_⟩
  · intro hdur
    rw [hres]
    have hadv := showcasePhase_advance
      { s with isShowcasePaused := false, lastShowcaseFrameTime := tr } (tr + d)
      hact hseq rfl htr (by simpa [hdelta] using hdur)
    exact ⟨hadv.1, hadv.2.1⟩
  · intro hdur
    rw [hres]
    have hnoa := showcasePhase_noadvance
      { s with isShowcasePaused := false, lastShowcaseFrameTime := tr } (tr + d)
      hact hseq rfl htr (by simpa [hdelta] using hdur)
    refine ⟨hnoa.1, ?_⟩
    rw [hnoa.2.1]
    show s.showcaseAccumulatedTime + (tr + d - tr) = s.showcaseAccumulatedTime + d
    rw [hdelta]

/-- Witness for C8: paused state with stale baseline 5 ms and accumulated
1000 ms of a 3000 ms face duration, resumed at 100000 ms (an enormous
pause gap), ticked 16 ms later: no advance occurs and the accumulated
time grows only by the genuine 16 ms. -/
theorem C8_resume_reanchors_witness :
    ((resumeShowcase ⟨true, true, 0, 1000, 5, [0, 2, 4], 3000, true, 1 / 50⟩ 100000).1).lastShowcaseFrameTime
      = 100000 ∧
    (showcasePhase (resumeShowcase ⟨true, true, 0, 1000, 5, [0, 2, 4], 3000, true, 1 / 50⟩
        100000).1 (100000 + 16)).1.showcaseCurrentIndex = 0 ∧
    (showcasePhase (resumeShowcase ⟨true, true, 0, 1000, 5, [0, 2, 4], 3000, true, 1 / 50⟩
        100000).1 (100000 + 16)).1.showcaseAccumulatedTime = 1000 + 16 := by
  have h := C8_resume_reanchors ⟨true, true, 0, 1000, 5, [0, 2, 4], 3000, true, 1 / 50⟩
    100000 16 rfl rfl (by decide) (by norm_num)
  have h2 := h.2.2 (by norm_num)
  exact ⟨h.1, h2.1, h2.2⟩

end CubeSwiper
